import Mathlib

/-!
Shallow embedding of the event-dispatch / protocol-translation layer of the
tradingview-rs repository (src/live/handler/types.rs) and of its study-input
compiler (src/models/pine_indicator.rs), with theorems settling the frozen
claims about that code.

Modelling conventions:
* `serde_json::Value` is the inductive `Value` below (numbers as `Int`;
  no claim depends on numeric semantics).
* External payload types (`SymbolInfo`, `SeriesInfo`, `DataPoint`,
  `StudyOptions`, `StudyResponseData`, `QuoteValue`, `crate::Error`) live in
  modules outside the provided sources; the handler layer never inspects
  them, so each is modelled as an uninterpreted wrapper around a `Value`.
  `ustr::Ustr` is an interned string, modelled as `String`.
* A handler in the source returns `()` and acts by sending on a tokio
  unbounded mpsc channel and/or emitting tracing diagnostics.  The embedding
  makes these effects explicit: a handler returns a `HandlerEffect` listing
  the values it enqueued (in order) and the number of diagnostics it logged.
  The channel itself is modelled by its open/closed state (a closed channel
  makes `send` fail) and, for ordering statements, by a FIFO queue of
  responses, matching the tokio unbounded-mpsc contract the code relies on.
* A Rust operation that can panic is modelled with `Option`: `none` is a
  panic (no normal result).
-/

/-- `serde_json::Value`: the untyped JSON values carried by raw payloads. -/
inductive Value where
  | null : Value
  | bool (b : Bool) : Value
  | num (n : Int) : Value
  | str (s : String) : Value
  | arr (xs : List Value) : Value
  | obj (kvs : List (String × Value)) : Value

/-- `chart::SymbolInfo` (external to the provided sources, uninterpreted). -/
structure SymbolInfo where
  val : Value

/-- `websocket::SeriesInfo` (external, uninterpreted). -/
structure SeriesInfo where
  val : Value

/-- `chart::DataPoint` (external, uninterpreted). -/
structure DataPoint where
  val : Value

/-- `chart::StudyOptions` (external, uninterpreted). -/
structure StudyOptions where
  val : Value

/-- `chart::StudyResponseData` (external, uninterpreted). -/
structure StudyResponseData where
  val : Value

/-- `quote::models::QuoteValue` (external, uninterpreted). -/
structure QuoteValue where
  val : Value

/-- `crate::Error` (external, uninterpreted). -/
structure TvError where
  val : Value

/-- Modelled from the spec: the `LoadingMsg` structured message of
`live/handler/message.rs`, which is not among the provided sources.  The
spec requires "a session/series identifier and a list of series
identifiers" at required positions of the raw payload. -/
structure LoadingMsg where
  session : String
  series : List String

/-- Modelled from the spec: decode every element of the series-list field
as a series identifier; any type mismatch fails (no partial construction). -/
def seriesIds : List Value → Option (List String)
  | [] => some []
  | Value.str s :: rest => (seriesIds rest).map (fun l => s :: l)
  | _ => none

/-- Modelled from the spec: `LoadingMsg::new`, the payload classifier shared
by the series-loading and study-loading kinds.  It requires a session
identifier and the series-list field at their positions; a payload whose
series-list field is missing (or any shape mismatch at a required position)
yields a decode error, and decoding is pure and deterministic. -/
def LoadingMsg.new (raw : List Value) : Except String LoadingMsg :=
  match raw with
  | Value.str session :: Value.arr xs :: _ =>
      match seriesIds xs with
      | some ids => Except.ok { session := session, series := ids }
      | none => Except.error "failed to parse LoadingMsg"
  | _ => Except.error "failed to parse LoadingMsg"

/-- `live::handler::message::TradingViewResponse`: the response union, one
variant per event kind, as wrapped by `create_handler`. -/
inductive TradingViewResponse where
  | SymbolInfo (d : SymbolInfo)
  | SeriesLoading (m : LoadingMsg)
  | ChartData (s : SeriesInfo) (pts : List DataPoint)
  | SeriesCompleted (d : List Value)
  | StudyLoading (m : LoadingMsg)
  | StudyData (o : StudyOptions) (d : StudyResponseData)
  | StudyCompleted (d : List Value)
  | QuoteData (d : QuoteValue)
  | QuoteCompleted (d : List Value)
  | ReplayOk (d : List Value)
  | ReplayPoint (d : List Value)
  | ReplayInstanceId (d : List Value)
  | ReplayResolutions (d : List Value)
  | ReplayDataEnd (d : List Value)
  | Error (e : TvError) (d : List Value)
  | UnknownEvent (name : String) (d : List Value)

/-- Observable effect of one handler invocation: the responses it enqueued
on the delivery channel, in order, and the number of diagnostics it logged
(tracing trace/error lines). -/
structure HandlerEffect where
  sends : List TradingViewResponse
  diags : Nat

/-- Effect of `if let Err(e) = tx.send(r) { tracing::error!(..) }`: on an
open channel the value is enqueued; on a closed channel nothing is enqueued
and one diagnostic is logged. -/
def sendOrLog (chOpen : Bool) (r : TradingViewResponse) : HandlerEffect :=
  if chOpen then { sends := [r], diags := 0 } else { sends := [], diags := 1 }

/-- Effect of `let _ = tx.send(r)` (used only by `on_symbol_info` in
`create_handler`): a failed send is silently discarded, no diagnostic. -/
def sendIgnore (chOpen : Bool) (r : TradingViewResponse) : HandlerEffect :=
  if chOpen then { sends := [r], diags := 0 } else { sends := [], diags := 0 }

/-- `TradingViewHandler`: the callback registry, one replaceable handler per
event kind.  Handlers are embedded as functions from the kind's input to the
observable `HandlerEffect` of one invocation. -/
structure TradingViewHandler where
  on_symbol_info : SymbolInfo → HandlerEffect
  on_series_loading : List Value → HandlerEffect
  on_chart_data : SeriesInfo × List DataPoint → HandlerEffect
  on_series_completed : List Value → HandlerEffect
  on_study_loading : List Value → HandlerEffect
  on_study_data : StudyOptions × StudyResponseData → HandlerEffect
  on_study_completed : List Value → HandlerEffect
  on_quote_data : QuoteValue → HandlerEffect
  on_quote_completed : List Value → HandlerEffect
  on_replay_ok : List Value → HandlerEffect
  on_replay_point : List Value → HandlerEffect
  on_replay_instance_id : List Value → HandlerEffect
  on_replay_resolutions : List Value → HandlerEffect
  on_replay_data_end : List Value → HandlerEffect
  on_error : TvError × List Value → HandlerEffect
  on_unknown_event : String × List Value → HandlerEffect

/-- `default_callback`: the builder default for every field; it logs the
callback name and payload once (one tracing diagnostic) and sends nothing. -/
def default_callback : HandlerEffect :=
  { sends := [], diags := 1 }

/-- `TradingViewHandler::default()` = `TradingViewHandler::builder().build()`:
every field defaulted to `default_callback`. -/
def TradingViewHandler.defaultHandler : TradingViewHandler where
  on_symbol_info := fun _ => default_callback
  on_series_loading := fun _ => default_callback
  on_chart_data := fun _ => default_callback
  on_series_completed := fun _ => default_callback
  on_study_loading := fun _ => default_callback
  on_study_data := fun _ => default_callback
  on_study_completed := fun _ => default_callback
  on_quote_data := fun _ => default_callback
  on_quote_completed := fun _ => default_callback
  on_replay_ok := fun _ => default_callback
  on_replay_point := fun _ => default_callback
  on_replay_instance_id := fun _ => default_callback
  on_replay_resolutions := fun _ => default_callback
  on_replay_data_end := fun _ => default_callback
  on_error := fun _ => default_callback
  on_unknown_event := fun _ => default_callback

/-- Setter generated by `event_setter!(on_symbol_info, ..)`: replaces only
that field and returns the registry (builder chaining). -/
def TradingViewHandler.set_on_symbol_info (self : TradingViewHandler)
    (f : SymbolInfo → HandlerEffect) : TradingViewHandler :=
  { self with on_symbol_info := f }

/-- Setter generated by `event_setter!(on_series_loading, ..)`. -/
def TradingViewHandler.set_on_series_loading (self : TradingViewHandler)
    (f : List Value → HandlerEffect) : TradingViewHandler :=
  { self with on_series_loading := f }

/-- Setter generated by `event_setter!(on_chart_data, ..)`. -/
def TradingViewHandler.set_on_chart_data (self : TradingViewHandler)
    (f : SeriesInfo × List DataPoint → HandlerEffect) : TradingViewHandler :=
  { self with on_chart_data := f }

/-- Setter generated by `event_setter!(on_series_completed, ..)`. -/
def TradingViewHandler.set_on_series_completed (self : TradingViewHandler)
    (f : List Value → HandlerEffect) : TradingViewHandler :=
  { self with on_series_completed := f }

/-- Setter generated by `event_setter!(on_study_loading, ..)`. -/
def TradingViewHandler.set_on_study_loading (self : TradingViewHandler)
    (f : List Value → HandlerEffect) : TradingViewHandler :=
  { self with on_study_loading := f }

/-- Setter generated by `event_setter!(on_study_data, ..)`. -/
def TradingViewHandler.set_on_study_data (self : TradingViewHandler)
    (f : StudyOptions × StudyResponseData → HandlerEffect) : TradingViewHandler :=
  { self with on_study_data := f }

/-- Setter generated by `event_setter!(on_study_completed, ..)`. -/
def TradingViewHandler.set_on_study_completed (self : TradingViewHandler)
    (f : List Value → HandlerEffect) : TradingViewHandler :=
  { self with on_study_completed := f }

/-- Setter generated by `event_setter!(on_quote_data, ..)`. -/
def TradingViewHandler.set_on_quote_data (self : TradingViewHandler)
    (f : QuoteValue → HandlerEffect) : TradingViewHandler :=
  { self with on_quote_data := f }

/-- Setter generated by `event_setter!(on_quote_completed, ..)`. -/
def TradingViewHandler.set_on_quote_completed (self : TradingViewHandler)
    (f : List Value → HandlerEffect) : TradingViewHandler :=
  { self with on_quote_completed := f }

/-- Setter generated by `event_setter!(on_replay_ok, ..)`. -/
def TradingViewHandler.set_on_replay_ok (self : TradingViewHandler)
    (f : List Value → HandlerEffect) : TradingViewHandler :=
  { self with on_replay_ok := f }

/-- Setter generated by `event_setter!(on_replay_point, ..)`. -/
def TradingViewHandler.set_on_replay_point (self : TradingViewHandler)
    (f : List Value → HandlerEffect) : TradingViewHandler :=
  { self with on_replay_point := f }

/-- Setter generated by `event_setter!(on_replay_instance_id, ..)`. -/
def TradingViewHandler.set_on_replay_instance_id (self : TradingViewHandler)
    (f : List Value → HandlerEffect) : TradingViewHandler :=
  { self with on_replay_instance_id := f }

/-- Setter generated by `event_setter!(on_replay_resolutions, ..)`. -/
def TradingViewHandler.set_on_replay_resolutions (self : TradingViewHandler)
    (f : List Value → HandlerEffect) : TradingViewHandler :=
  { self with on_replay_resolutions := f }

/-- Setter generated by `event_setter!(on_replay_data_end, ..)`. -/
def TradingViewHandler.set_on_replay_data_end (self : TradingViewHandler)
    (f : List Value → HandlerEffect) : TradingViewHandler :=
  { self with on_replay_data_end := f }

/-- Setter generated by `event_setter!(on_error, ..)`. -/
def TradingViewHandler.set_on_error (self : TradingViewHandler)
    (f : TvError × List Value → HandlerEffect) : TradingViewHandler :=
  { self with on_error := f }

/-- Setter generated by `event_setter!(on_unknown_event, ..)`. -/
def TradingViewHandler.set_on_unknown_event (self : TradingViewHandler)
    (f : String × List Value → HandlerEffect) : TradingViewHandler :=
  { self with on_unknown_event := f }

/-- `create_handler(tx)`: the dispatch bridge.  Every handler packages its
input into the matching `TradingViewResponse` variant and sends it on the
channel; the two loading kinds first run `LoadingMsg::new` and, on decode
failure, log one diagnostic and return without sending.  All handlers log a
failed send except `on_symbol_info`, whose source line is
`let _ = tx.send(..)`.  The channel is represented by its open/closed
state `chOpen`. -/
def create_handler (chOpen : Bool) : TradingViewHandler where
  on_symbol_info := fun data =>
    sendIgnore chOpen (TradingViewResponse.SymbolInfo data)
  on_series_loading := fun data =>
    match LoadingMsg.new data with
    | Except.ok msg => sendOrLog chOpen (TradingViewResponse.SeriesLoading msg)
    | Except.error _ => { sends := [], diags := 1 }
  on_chart_data := fun p =>
    sendOrLog chOpen (TradingViewResponse.ChartData p.1 p.2)
  on_series_completed := fun data =>
    sendOrLog chOpen (TradingViewResponse.SeriesCompleted data)
  on_study_loading := fun data =>
    match LoadingMsg.new data with
    | Except.ok msg => sendOrLog chOpen (TradingViewResponse.StudyLoading msg)
    | Except.error _ => { sends := [], diags := 1 }
  on_study_data := fun p =>
    sendOrLog chOpen (TradingViewResponse.StudyData p.1 p.2)
  on_study_completed := fun data =>
    sendOrLog chOpen (TradingViewResponse.StudyCompleted data)
  on_quote_data := fun data =>
    sendOrLog chOpen (TradingViewResponse.QuoteData data)
  on_quote_completed := fun data =>
    sendOrLog chOpen (TradingViewResponse.QuoteCompleted data)
  on_replay_ok := fun data =>
    sendOrLog chOpen (TradingViewResponse.ReplayOk data)
  on_replay_point := fun data =>
    sendOrLog chOpen (TradingViewResponse.ReplayPoint data)
  on_replay_instance_id := fun data =>
    sendOrLog chOpen (TradingViewResponse.ReplayInstanceId data)
  on_replay_resolutions := fun data =>
    sendOrLog chOpen (TradingViewResponse.ReplayResolutions data)
  on_replay_data_end := fun data =>
    sendOrLog chOpen (TradingViewResponse.ReplayDataEnd data)
  on_error := fun p =>
    sendOrLog chOpen (TradingViewResponse.Error p.1 p.2)
  on_unknown_event := fun p =>
    sendOrLog chOpen (TradingViewResponse.UnknownEvent p.1 p.2)

/-- The fixed, closed set of event kinds. -/
inductive EventKind where
  | symbolInfo
  | seriesLoading
  | chartData
  | seriesCompleted
  | studyLoading
  | studyData
  | studyCompleted
  | quoteData
  | quoteCompleted
  | replayOk
  | replayPoint
  | replayInstanceId
  | replayResolutions
  | replayDataEnd
  | error
  | unknownEvent
deriving DecidableEq

/-- One invocation input: the event kind together with the argument the
transport layer passes to that kind's handler. -/
inductive EventPayload where
  | symbolInfo (d : SymbolInfo)
  | seriesLoading (d : List Value)
  | chartData (s : SeriesInfo) (pts : List DataPoint)
  | seriesCompleted (d : List Value)
  | studyLoading (d : List Value)
  | studyData (o : StudyOptions) (d : StudyResponseData)
  | studyCompleted (d : List Value)
  | quoteData (d : QuoteValue)
  | quoteCompleted (d : List Value)
  | replayOk (d : List Value)
  | replayPoint (d : List Value)
  | replayInstanceId (d : List Value)
  | replayResolutions (d : List Value)
  | replayDataEnd (d : List Value)
  | error (e : TvError) (d : List Value)
  | unknownEvent (name : String) (d : List Value)

/-- The kind of an invocation input. -/
def payloadKind : EventPayload → EventKind
  | EventPayload.symbolInfo _ => EventKind.symbolInfo
  | EventPayload.seriesLoading _ => EventKind.seriesLoading
  | EventPayload.chartData _ _ => EventKind.chartData
  | EventPayload.seriesCompleted _ => EventKind.seriesCompleted
  | EventPayload.studyLoading _ => EventKind.studyLoading
  | EventPayload.studyData _ _ => EventKind.studyData
  | EventPayload.studyCompleted _ => EventKind.studyCompleted
  | EventPayload.quoteData _ => EventKind.quoteData
  | EventPayload.quoteCompleted _ => EventKind.quoteCompleted
  | EventPayload.replayOk _ => EventKind.replayOk
  | EventPayload.replayPoint _ => EventKind.replayPoint
  | EventPayload.replayInstanceId _ => EventKind.replayInstanceId
  | EventPayload.replayResolutions _ => EventKind.replayResolutions
  | EventPayload.replayDataEnd _ => EventKind.replayDataEnd
  | EventPayload.error _ _ => EventKind.error
  | EventPayload.unknownEvent _ _ => EventKind.unknownEvent

/-- The kind whose variant a response value is tagged with. -/
def responseKind : TradingViewResponse → EventKind
  | TradingViewResponse.SymbolInfo _ => EventKind.symbolInfo
  | TradingViewResponse.SeriesLoading _ => EventKind.seriesLoading
  | TradingViewResponse.ChartData _ _ => EventKind.chartData
  | TradingViewResponse.SeriesCompleted _ => EventKind.seriesCompleted
  | TradingViewResponse.StudyLoading _ => EventKind.studyLoading
  | TradingViewResponse.StudyData _ _ => EventKind.studyData
  | TradingViewResponse.StudyCompleted _ => EventKind.studyCompleted
  | TradingViewResponse.QuoteData _ => EventKind.quoteData
  | TradingViewResponse.QuoteCompleted _ => EventKind.quoteCompleted
  | TradingViewResponse.ReplayOk _ => EventKind.replayOk
  | TradingViewResponse.ReplayPoint _ => EventKind.replayPoint
  | TradingViewResponse.ReplayInstanceId _ => EventKind.replayInstanceId
  | TradingViewResponse.ReplayResolutions _ => EventKind.replayResolutions
  | TradingViewResponse.ReplayDataEnd _ => EventKind.replayDataEnd
  | TradingViewResponse.Error _ _ => EventKind.error
  | TradingViewResponse.UnknownEvent _ _ => EventKind.unknownEvent

/-- Invoke the registered handler for a payload's kind (what the transport
layer does when an event arrives). -/
def invokeHandler (h : TradingViewHandler) : EventPayload → HandlerEffect
  | EventPayload.symbolInfo d => h.on_symbol_info d
  | EventPayload.seriesLoading d => h.on_series_loading d
  | EventPayload.chartData s pts => h.on_chart_data (s, pts)
  | EventPayload.seriesCompleted d => h.on_series_completed d
  | EventPayload.studyLoading d => h.on_study_loading d
  | EventPayload.studyData o d => h.on_study_data (o, d)
  | EventPayload.studyCompleted d => h.on_study_completed d
  | EventPayload.quoteData d => h.on_quote_data d
  | EventPayload.quoteCompleted d => h.on_quote_completed d
  | EventPayload.replayOk d => h.on_replay_ok d
  | EventPayload.replayPoint d => h.on_replay_point d
  | EventPayload.replayInstanceId d => h.on_replay_instance_id d
  | EventPayload.replayResolutions d => h.on_replay_resolutions d
  | EventPayload.replayDataEnd d => h.on_replay_data_end d
  | EventPayload.error e d => h.on_error (e, d)
  | EventPayload.unknownEvent n d => h.on_unknown_event (n, d)

/-- Spec-side expectation (refinement target, written from the spec's words,
not from the source): the single response union value a bridge handler is
expected to forward for a payload — the payload wrapped unchanged in the
matching variant, where the two loading kinds first classify the raw
payload and expect nothing when classification fails. -/
def specExpectedResponse : EventPayload → Option TradingViewResponse
  | EventPayload.symbolInfo d => some (TradingViewResponse.SymbolInfo d)
  | EventPayload.seriesLoading d =>
      match LoadingMsg.new d with
      | Except.ok m => some (TradingViewResponse.SeriesLoading m)
      | Except.error _ => none
  | EventPayload.chartData s pts => some (TradingViewResponse.ChartData s pts)
  | EventPayload.seriesCompleted d => some (TradingViewResponse.SeriesCompleted d)
  | EventPayload.studyLoading d =>
      match LoadingMsg.new d with
      | Except.ok m => some (TradingViewResponse.StudyLoading m)
      | Except.error _ => none
  | EventPayload.studyData o d => some (TradingViewResponse.StudyData o d)
  | EventPayload.studyCompleted d => some (TradingViewResponse.StudyCompleted d)
  | EventPayload.quoteData d => some (TradingViewResponse.QuoteData d)
  | EventPayload.quoteCompleted d => some (TradingViewResponse.QuoteCompleted d)
  | EventPayload.replayOk d => some (TradingViewResponse.ReplayOk d)
  | EventPayload.replayPoint d => some (TradingViewResponse.ReplayPoint d)
  | EventPayload.replayInstanceId d => some (TradingViewResponse.ReplayInstanceId d)
  | EventPayload.replayResolutions d => some (TradingViewResponse.ReplayResolutions d)
  | EventPayload.replayDataEnd d => some (TradingViewResponse.ReplayDataEnd d)
  | EventPayload.error e d => some (TradingViewResponse.Error e d)
  | EventPayload.unknownEvent n d => some (TradingViewResponse.UnknownEvent n d)

/-- Run a sequence of handler invocations against the FIFO delivery queue:
each invocation appends the responses it sends (tokio unbounded mpsc
preserves per-producer send order). -/
def runHandlers (h : TradingViewHandler) (q : List TradingViewResponse)
    (ps : List EventPayload) : List TradingViewResponse :=
  ps.foldl (fun acc p => acc ++ (invokeHandler h p).sends) q

/-- `models::FinancialPeriod` (external, uninterpreted). -/
structure FinancialPeriod where
  val : Value

/-- `ScriptType` (src/models/pine_indicator.rs). -/
inductive ScriptType where
  | Script
  | IntervalScript
  | StrategyScript
  | VolumeBasicStudies
  | FixedBasicStudies
  | FixedVolumeByPrice
  | SessionVolumeByPrice
  | SessionRoughVolumeByPrice
  | SessionDetailedVolumeByPrice
  | VisibleVolumeByPrice
deriving DecidableEq

/-- `impl From<String> for ScriptType`: the source body is `todo!()`, an
unconditional panic on every input.  Panic is modelled as `none` (no normal
result is ever produced). -/
def ScriptType.fromString (_value : String) : Option ScriptType :=
  none

/-- `Plot` (src/models/pine_indicator.rs). -/
structure Plot where
  id : String
  plot_type : String
  target : Option String

/-- `PineInput` (src/models/pine_indicator.rs): one input descriptor of the
indicator metadata. -/
structure PineInput where
  name : String
  inline : String
  id : String
  defval : Value
  is_hidden : Bool
  is_fake : Bool
  optional : Bool
  options : List String
  tooltip : Option String
  input_type : String

/-- `PineMetadataInfo` (src/models/pine_indicator.rs); `HashMap<String, _>`
fields are modelled as association lists. -/
structure PineMetadataInfo where
  id : String
  script_id : String
  description : String
  short_description : String
  financial_period : Option FinancialPeriod
  grouping_key : String
  is_fundamental_study : Bool
  is_hidden_study : Bool
  is_tv_script : Bool
  is_tv_script_stub : Bool
  is_price_study : Bool
  inputs : List PineInput
  defaults : List (String × Value)
  palettes : List (String × Value)
  pine : List (String × String)
  plots : List Plot
  styles : List (String × Value)
  uses_private_lib : Bool
  warnings : List Value

/-- `PineMetadata` (src/models/pine_indicator.rs). -/
structure PineMetadata where
  il : String
  il_template : String
  data : PineMetadataInfo

/-- `PineIndicator` (src/models/pine_indicator.rs). -/
structure PineIndicator where
  script_id : String
  script_version : String
  script_type : ScriptType
  metadata : PineMetadata

/-- `chart::study::IndicatorInput` (external to the provided sources): the
compiled entry for one study-input parameter — a bare string for the
reserved names, or an `InputValue { v, f, t }` record for a metadata
input. -/
inductive IndicatorInput where
  | str (s : String)
  | input (v : Value) (f : Value) (t : Value)

/-- Key list of an association-list map. -/
def keys (m : List (String × IndicatorInput)) : List String :=
  m.map (fun p => p.1)

/-- `HashMap::insert` on the association-list model: overwrite the entry if
the key is present, otherwise append a new entry. -/
def insertKV (m : List (String × IndicatorInput)) (k : String)
    (v : IndicatorInput) : List (String × IndicatorInput) :=
  if k ∈ keys m then
    m.map (fun p => if p.1 = k then (k, v) else p)
  else
    m ++ [(k, v)]

/-- `HashMap::get` on the association-list model. -/
def lookupKV : List (String × IndicatorInput) → String → Option IndicatorInput
  | [], _ => none
  | (k', v) :: rest, k => if k' = k then some v else lookupKV rest k

/-- The reserved-name test of `to_study_inputs`:
`input.id == "text" || input.id == "pineId" || input.id == "pineVersion"`. -/
def isReservedId (s : String) : Bool :=
  s == "text" || s == "pineId" || s == "pineVersion"

/-- One iteration of the `for_each` loop of `to_study_inputs`: skip an input
whose id is reserved, otherwise insert an `InputValue` entry keyed by the
input's id, carrying its default value, fake flag and type tag. -/
def studyInputsStep (m : List (String × IndicatorInput)) (input : PineInput) :
    List (String × IndicatorInput) :=
  if isReservedId input.id then m
  else
    insertKV m input.id
      (IndicatorInput.input input.defval (Value.bool input.is_fake)
        (Value.str input.input_type))

/-- The map built by `PineIndicator::to_study_inputs` before JSON encoding:
seed the three reserved entries (`text` from the metadata's template,
`pineId` from the script id, `pineVersion` from the script version), then
fold the loop over the metadata's input descriptors. -/
def studyInputsMap (self : PineIndicator) : List (String × IndicatorInput) :=
  self.metadata.data.inputs.foldl studyInputsStep
    (insertKV
      (insertKV
        (insertKV [] "text" (IndicatorInput.str self.metadata.il_template))
        "pineId" (IndicatorInput.str self.script_id))
      "pineVersion" (IndicatorInput.str self.script_version))

/-- JSON encoding of one compiled entry (`serde_json::to_value` on
`IndicatorInput`). -/
def encodeIndicatorInput : IndicatorInput → Value
  | IndicatorInput.str s => Value.str s
  | IndicatorInput.input v f t => Value.obj [("v", v), ("f", f), ("t", t)]

/-- `PineIndicator::to_study_inputs`.  The final
`serde_json::to_value(inputs)?` serializes a map with string keys whose
values are already JSON-representable, which cannot fail, so the encoding
step is total and the `Result` is always `Ok`; the `Except` shape of the
source signature is kept. -/
def PineIndicator.toStudyInputs (self : PineIndicator) : Except String Value :=
  Except.ok
    (Value.obj ((studyInputsMap self).map
      (fun p => (p.1, encodeIndicatorInput p.2))))

/-- `Result::is_ok` on classification results. -/
def decodeOk (r : Except String LoadingMsg) : Bool :=
  match r with
  | Except.ok _ => true
  | Except.error _ => false

/-- Uniform payload type of the handler bound to an event kind. -/
def HandlerInput : EventKind → Type
  | EventKind.symbolInfo => SymbolInfo
  | EventKind.seriesLoading => List Value
  | EventKind.chartData => SeriesInfo × List DataPoint
  | EventKind.seriesCompleted => List Value
  | EventKind.studyLoading => List Value
  | EventKind.studyData => StudyOptions × StudyResponseData
  | EventKind.studyCompleted => List Value
  | EventKind.quoteData => QuoteValue
  | EventKind.quoteCompleted => List Value
  | EventKind.replayOk => List Value
  | EventKind.replayPoint => List Value
  | EventKind.replayInstanceId => List Value
  | EventKind.replayResolutions => List Value
  | EventKind.replayDataEnd => List Value
  | EventKind.error => TvError × List Value
  | EventKind.unknownEvent => String × List Value

/-- The handler a registry binds to an event kind. -/
def getHandler : (k : EventKind) → TradingViewHandler → (HandlerInput k → HandlerEffect)
  | EventKind.symbolInfo, h => h.on_symbol_info
  | EventKind.seriesLoading, h => h.on_series_loading
  | EventKind.chartData, h => h.on_chart_data
  | EventKind.seriesCompleted, h => h.on_series_completed
  | EventKind.studyLoading, h => h.on_study_loading
  | EventKind.studyData, h => h.on_study_data
  | EventKind.studyCompleted, h => h.on_study_completed
  | EventKind.quoteData, h => h.on_quote_data
  | EventKind.quoteCompleted, h => h.on_quote_completed
  | EventKind.replayOk, h => h.on_replay_ok
  | EventKind.replayPoint, h => h.on_replay_point
  | EventKind.replayInstanceId, h => h.on_replay_instance_id
  | EventKind.replayResolutions, h => h.on_replay_resolutions
  | EventKind.replayDataEnd, h => h.on_replay_data_end
  | EventKind.error, h => h.on_error
  | EventKind.unknownEvent, h => h.on_unknown_event

/-- The setter a registry exposes for an event kind (dispatches to the
`event_setter!`-generated method of that kind). -/
def setHandler : (k : EventKind) → TradingViewHandler →
    (HandlerInput k → HandlerEffect) → TradingViewHandler
  | EventKind.symbolInfo, h, f => h.set_on_symbol_info f
  | EventKind.seriesLoading, h, f => h.set_on_series_loading f
  | EventKind.chartData, h, f => h.set_on_chart_data f
  | EventKind.seriesCompleted, h, f => h.set_on_series_completed f
  | EventKind.studyLoading, h, f => h.set_on_study_loading f
  | EventKind.studyData, h, f => h.set_on_study_data f
  | EventKind.studyCompleted, h, f => h.set_on_study_completed f
  | EventKind.quoteData, h, f => h.set_on_quote_data f
  | EventKind.quoteCompleted, h, f => h.set_on_quote_completed f
  | EventKind.replayOk, h, f => h.set_on_replay_ok f
  | EventKind.replayPoint, h, f => h.set_on_replay_point f
  | EventKind.replayInstanceId, h, f => h.set_on_replay_instance_id f
  | EventKind.replayResolutions, h, f => h.set_on_replay_resolutions f
  | EventKind.replayDataEnd, h, f => h.set_on_replay_data_end f
  | EventKind.error, h, f => h.set_on_error f
  | EventKind.unknownEvent, h, f => h.set_on_unknown_event f

/-- A sample constant handler function, used as a concrete override. -/
def constChartHandler : SeriesInfo × List DataPoint → HandlerEffect :=
  fun _ => { sends := [], diags := 0 }

/-- On an open channel, a bridge handler applied to a payload whose
classification succeeds sends exactly the expected response and logs
nothing. -/
theorem invoke_open_spec (p : EventPayload) (r : TradingViewResponse)
    (h : specExpectedResponse p = some r) :
    invokeHandler (create_handler true) p = { sends := [r], diags := 0 } := by
  cases p with
  | seriesLoading d =>
      cases hm : LoadingMsg.new d with
      | ok m =>
          simp only [specExpectedResponse, hm, Option.some.injEq] at h
          subst h
          simp [invokeHandler, create_handler, hm, sendOrLog]
      | error e =>
          simp only [specExpectedResponse, hm] at h
          exact Option.noConfusion h
  | studyLoading d =>
      cases hm : LoadingMsg.new d with
      | ok m =>
          simp only [specExpectedResponse, hm, Option.some.injEq] at h
          subst h
          simp [invokeHandler, create_handler, hm, sendOrLog]
      | error e =>
          simp only [specExpectedResponse, hm] at h
          exact Option.noConfusion h
  | _ =>
      simp only [specExpectedResponse, Option.some.injEq] at h
      subst h
      rfl

/-- The expected response is tagged with the payload's kind. -/
theorem respKind_eq_payloadKind (p : EventPayload) (r : TradingViewResponse)
    (h : specExpectedResponse p = some r) :
    responseKind r = payloadKind p := by
  cases p with
  | seriesLoading d =>
      cases hm : LoadingMsg.new d with
      | ok m =>
          simp only [specExpectedResponse, hm, Option.some.injEq] at h
          subst h
          rfl
      | error e =>
          simp only [specExpectedResponse, hm] at h
          exact Option.noConfusion h
  | studyLoading d =>
      cases hm : LoadingMsg.new d with
      | ok m =>
          simp only [specExpectedResponse, hm, Option.some.injEq] at h
          subst h
          rfl
      | error e =>
          simp only [specExpectedResponse, hm] at h
          exact Option.noConfusion h
  | _ =>
      simp only [specExpectedResponse, Option.some.injEq] at h
      subst h
      rfl

/-- C1: for every event kind handled by the dispatch bridge (open channel
and, for the two loading kinds, a decodable payload), invoking the handler
built by `create_handler` sends exactly one `TradingViewResponse` on the
channel, tagged with that kind's variant and carrying the input payload
unchanged (for the loading kinds, the classified message of the input). -/
theorem bridge_sends_one_tagged_response (p : EventPayload)
    (r : TradingViewResponse) (h : specExpectedResponse p = some r) :
    invokeHandler (create_handler true) p = { sends := [r], diags := 0 } ∧
    responseKind r = payloadKind p :=
  ⟨invoke_open_spec p r h, respKind_eq_payloadKind p r h⟩

/-- Witness for C1 at the concrete symbol-info payload `Value.null`. -/
theorem bridge_sends_one_tagged_response_witness :
    specExpectedResponse (EventPayload.symbolInfo { val := Value.null }) =
      some (TradingViewResponse.SymbolInfo { val := Value.null }) ∧
    invokeHandler (create_handler true)
        (EventPayload.symbolInfo { val := Value.null }) =
      { sends := [TradingViewResponse.SymbolInfo { val := Value.null }],
        diags := 0 } ∧
    responseKind (TradingViewResponse.SymbolInfo { val := Value.null }) =
      payloadKind (EventPayload.symbolInfo { val := Value.null }) :=
  ⟨rfl,
    (bridge_sends_one_tagged_response
      (EventPayload.symbolInfo { val := Value.null })
      (TradingViewResponse.SymbolInfo { val := Value.null }) rfl).1,
    (bridge_sends_one_tagged_response
      (EventPayload.symbolInfo { val := Value.null })
      (TradingViewResponse.SymbolInfo { val := Value.null }) rfl).2⟩

/-- C2: for both loading kinds, an undecodable raw payload yields zero
channel sends and exactly one diagnostic, and the two handlers share the
classification: on any raw payload they send or refuse identically. -/
theorem loading_handlers_decode_failure (chOpen : Bool) (d : List Value) :
    (decodeOk (LoadingMsg.new d) = false →
      invokeHandler (create_handler chOpen) (EventPayload.seriesLoading d) =
        { sends := [], diags := 1 } ∧
      invokeHandler (create_handler chOpen) (EventPayload.studyLoading d) =
        { sends := [], diags := 1 }) ∧
    ((invokeHandler (create_handler chOpen)
        (EventPayload.seriesLoading d)).sends = [] ↔
      (invokeHandler (create_handler chOpen)
        (EventPayload.studyLoading d)).sends = []) := by
  cases hm : LoadingMsg.new d with
  | ok m =>
      constructor
      · intro hfalse
        simp [decodeOk, hm] at hfalse
      · cases chOpen <;> simp [invokeHandler, create_handler, hm, sendOrLog]
  | error e =>
      constructor
      · intro _
        constructor <;> simp [invokeHandler, create_handler, hm]
      · simp [invokeHandler, create_handler, hm]

/-- Witness for C2 at the concrete payload `[Value.str "cs_1"]`, whose
series-list field is missing. -/
theorem loading_handlers_decode_failure_witness :
    decodeOk (LoadingMsg.new [Value.str "cs_1"]) = false ∧
    invokeHandler (create_handler true)
        (EventPayload.seriesLoading [Value.str "cs_1"]) =
      { sends := [], diags := 1 } ∧
    invokeHandler (create_handler true)
        (EventPayload.studyLoading [Value.str "cs_1"]) =
      { sends := [], diags := 1 } :=
  ⟨rfl,
    ((loading_handlers_decode_failure true [Value.str "cs_1"]).1 rfl).1,
    ((loading_handlers_decode_failure true [Value.str "cs_1"]).1 rfl).2⟩

/-- C5 counterexample: the claim says every kind's handler logs exactly one
delivery diagnostic when the consumer end is closed, but `on_symbol_info`
is wired with `let _ = tx.send(..)` and logs nothing: at the concrete
symbol-info payload `Value.null` on a closed channel, the number of
diagnostics is not 1 (it is 0). -/
theorem symbol_info_closed_channel_silent :
    (invokeHandler (create_handler false)
      (EventPayload.symbolInfo { val := Value.null })).diags ≠ 1 := by
  decide

/-- C5 amended: on a closed channel, every bridge handler except the
symbol-info one logs exactly one delivery diagnostic, sends nothing and
returns normally (for a payload whose classification succeeds); the
symbol-info handler also returns normally with zero sends but logs no
diagnostic.  Handlers are pure functions of the channel state, so
subsequent invocations behave identically. -/
theorem closed_channel_delivery_diagnostics (p : EventPayload)
    (r : TradingViewResponse) (h : specExpectedResponse p = some r) :
    (payloadKind p ≠ EventKind.symbolInfo →
      invokeHandler (create_handler false) p = { sends := [], diags := 1 }) ∧
    (payloadKind p = EventKind.symbolInfo →
      invokeHandler (create_handler false) p = { sends := [], diags := 0 }) := by
  cases p with
  | symbolInfo d =>
      exact ⟨fun hne => absurd rfl hne, fun _ => rfl⟩
  | seriesLoading d =>
      cases hm : LoadingMsg.new d with
      | ok m =>
          refine ⟨fun _ => ?_, fun hk => by cases hk⟩
          simp [invokeHandler, create_handler, hm, sendOrLog]
      | error e =>
          simp only [specExpectedResponse, hm] at h
          exact Option.noConfusion h
  | studyLoading d =>
      cases hm : LoadingMsg.new d with
      | ok m =>
          refine ⟨fun _ => ?_, fun hk => by cases hk⟩
          simp [invokeHandler, create_handler, hm, sendOrLog]
      | error e =>
          simp only [specExpectedResponse, hm] at h
          exact Option.noConfusion h
  | _ =>
      exact ⟨fun _ => rfl, fun hk => by cases hk⟩

/-- Witness for the amended C5 at the concrete chart-data payload. -/
theorem closed_channel_delivery_diagnostics_witness :
    specExpectedResponse (EventPayload.chartData { val := Value.null } []) =
      some (TradingViewResponse.ChartData { val := Value.null } []) ∧
    payloadKind (EventPayload.chartData { val := Value.null } []) ≠
      EventKind.symbolInfo ∧
    invokeHandler (create_handler false)
        (EventPayload.chartData { val := Value.null } []) =
      { sends := [], diags := 1 } :=
  ⟨rfl, by decide,
    (closed_channel_delivery_diagnostics
      (EventPayload.chartData { val := Value.null } [])
      (TradingViewResponse.ChartData { val := Value.null } []) rfl).1
      (by decide)⟩

/-- C7: for every event kind, invoking the default handler
(`TradingViewHandler::default()`, i.e. `builder().build()` with no setter
calls) with any payload emits exactly one diagnostic and sends nothing;
the default registry is fully populated, so dispatch is defined for every
kind. -/
theorem default_handler_one_diagnostic_zero_sends (p : EventPayload) :
    invokeHandler TradingViewHandler.defaultHandler p =
      { sends := [], diags := 1 } := by
  cases p <;> rfl

/-- C9: invoking the bridge handlers for two payloads in sequence (same
producer context, open channel, decodable payloads) leaves the delivery
queue holding the response for the first before the response for the
second: FIFO order of invocation is preserved. -/
theorem delivery_order_preserved (pA pB : EventPayload)
    (rA rB : TradingViewResponse) (hA : specExpectedResponse pA = some rA)
    (hB : specExpectedResponse pB = some rB) :
    runHandlers (create_handler true) [] [pA, pB] = [rA, rB] := by
  simp [runHandlers, invoke_open_spec pA rA hA, invoke_open_spec pB rB hB]

/-- Witness for C9: a symbol-info payload then a quote-completed payload. -/
theorem delivery_order_preserved_witness :
    specExpectedResponse (EventPayload.symbolInfo { val := Value.null }) =
      some (TradingViewResponse.SymbolInfo { val := Value.null }) ∧
    specExpectedResponse (EventPayload.quoteCompleted [Value.num 1]) =
      some (TradingViewResponse.QuoteCompleted [Value.num 1]) ∧
    runHandlers (create_handler true) []
        [EventPayload.symbolInfo { val := Value.null },
          EventPayload.quoteCompleted [Value.num 1]] =
      [TradingViewResponse.SymbolInfo { val := Value.null },
        TradingViewResponse.QuoteCompleted [Value.num 1]] :=
  ⟨rfl, rfl,
    delivery_order_preserved
      (EventPayload.symbolInfo { val := Value.null })
      (EventPayload.quoteCompleted [Value.num 1])
      (TradingViewResponse.SymbolInfo { val := Value.null })
      (TradingViewResponse.QuoteCompleted [Value.num 1]) rfl rfl⟩

/-- C10: each `event_setter!`-generated setter binds the supplied function
to its own kind and leaves the handler bound to every other kind
unchanged. -/
theorem setter_updates_only_its_kind (k : EventKind) (h : TradingViewHandler)
    (f : HandlerInput k → HandlerEffect) :
    getHandler k (setHandler k h f) = f ∧
    ∀ k', k' ≠ k → getHandler k' (setHandler k h f) = getHandler k' h := by
  cases k <;>
    refine ⟨rfl, fun k' hk => ?_⟩ <;>
    cases k' <;> first | rfl | exact absurd rfl hk

/-- Witness for C10: overriding the chart-data handler of the default
registry with a concrete function leaves the symbol-info binding intact. -/
theorem setter_updates_only_its_kind_witness :
    getHandler EventKind.chartData
        (setHandler EventKind.chartData TradingViewHandler.defaultHandler
          constChartHandler) = constChartHandler ∧
    getHandler EventKind.symbolInfo
        (setHandler EventKind.chartData TradingViewHandler.defaultHandler
          constChartHandler) =
      getHandler EventKind.symbolInfo TradingViewHandler.defaultHandler :=
  ⟨(setter_updates_only_its_kind EventKind.chartData
      TradingViewHandler.defaultHandler constChartHandler).1,
    (setter_updates_only_its_kind EventKind.chartData
      TradingViewHandler.defaultHandler constChartHandler).2
      EventKind.symbolInfo (by decide)⟩

/-- Overwriting an entry does not change the key list. -/
theorem keys_overwrite (m : List (String × IndicatorInput)) (k : String)
    (v : IndicatorInput) :
    keys (m.map (fun p => if p.1 = k then (k, v) else p)) = keys m := by
  induction m with
  | nil => rfl
  | cons q rest ih =>
      by_cases hq : q.1 = k
      · simp only [List.map_cons, if_pos hq, keys] at ih ⊢
        rw [hq]
        exact congrArg _ ih
      · simp only [List.map_cons, if_neg hq, keys] at ih ⊢
        exact congrArg _ ih

/-- Key list of `HashMap::insert`: unchanged when the key is present,
extended by the key otherwise. -/
theorem keys_insertKV (m : List (String × IndicatorInput)) (k : String)
    (v : IndicatorInput) :
    keys (insertKV m k v) =
      if k ∈ keys m then keys m else keys m ++ [k] := by
  unfold insertKV
  by_cases hk : k ∈ keys m
  · rw [if_pos hk, if_pos hk, keys_overwrite]
  · rw [if_neg hk, if_neg hk]
    simp [keys]

/-- Membership in the key list after an insert. -/
theorem mem_keys_insertKV (m : List (String × IndicatorInput)) (k : String)
    (v : IndicatorInput) (x : String) :
    x ∈ keys (insertKV m k v) ↔ x ∈ keys m ∨ x = k := by
  rw [keys_insertKV]
  by_cases hk : k ∈ keys m
  · rw [if_pos hk]
    constructor
    · exact Or.inl
    · rintro (h | rfl)
      · exact h
      · exact hk
  · rw [if_neg hk]
    simp

/-- Insert preserves key-list uniqueness. -/
theorem nodup_keys_insertKV (m : List (String × IndicatorInput)) (k : String)
    (v : IndicatorInput) (h : (keys m).Nodup) :
    (keys (insertKV m k v)).Nodup := by
  rw [keys_insertKV]
  by_cases hk : k ∈ keys m
  · rwa [if_pos hk]
  · rw [if_neg hk]
    simp [List.nodup_append, h, hk]

/-- Overwriting under a different key does not change a lookup. -/
theorem lookupKV_overwrite_ne (m : List (String × IndicatorInput))
    (k' k : String) (v : IndicatorInput) (hne : k' ≠ k) :
    lookupKV (m.map (fun p => if p.1 = k' then (k', v) else p)) k =
      lookupKV m k := by
  induction m with
  | nil => rfl
  | cons q rest ih =>
      obtain ⟨qk, qv⟩ := q
      by_cases hq : qk = k'
      · subst hq
        have h1 : List.map (fun p => if p.1 = qk then (qk, v) else p)
            ((qk, qv) :: rest) =
            (qk, v) :: List.map (fun p => if p.1 = qk then (qk, v) else p)
              rest := by
          simp
        rw [h1]
        simp [lookupKV, hne, ih]
      · have h1 : List.map (fun p => if p.1 = k' then (k', v) else p)
            ((qk, qv) :: rest) =
            (qk, qv) :: List.map (fun p => if p.1 = k' then (k', v) else p)
              rest := by
          simp [hq]
        rw [h1]
        simp [lookupKV, ih]

/-- Lookup through an append tries the left entries first. -/
theorem lookupKV_append (a b : List (String × IndicatorInput)) (k : String) :
    lookupKV (a ++ b) k =
      match lookupKV a k with
      | some v => some v
      | none => lookupKV b k := by
  induction a with
  | nil => rfl
  | cons q rest ih =>
      obtain ⟨qk, qv⟩ := q
      by_cases hq : qk = k <;> simp [lookupKV, hq, ih]

/-- Inserting under a different key does not change a lookup. -/
theorem lookupKV_insertKV_ne (m : List (String × IndicatorInput))
    (k' k : String) (v : IndicatorInput) (hne : k' ≠ k) :
    lookupKV (insertKV m k' v) k = lookupKV m k := by
  unfold insertKV
  by_cases hk : k' ∈ keys m
  · rw [if_pos hk]
    exact lookupKV_overwrite_ne m k' k v hne
  · rw [if_neg hk, lookupKV_append]
    cases hl : lookupKV m k with
    | some v₀ => rfl
    | none => simp [lookupKV, hne]

/-- The compiler's loop never touches a reserved key: looking one up after
the fold gives what the seed held. -/
theorem lookupKV_fold_reserved (l : List PineInput)
    (m : List (String × IndicatorInput)) (k : String)
    (hk : isReservedId k = true) :
    lookupKV (l.foldl studyInputsStep m) k = lookupKV m k := by
  induction l generalizing m with
  | nil => rfl
  | cons input rest ih =>
      rw [List.foldl_cons, ih]
      unfold studyInputsStep
      by_cases hr : isReservedId input.id = true
      · rw [if_pos hr]
      · rw [if_neg hr]
        apply lookupKV_insertKV_ne
        intro heq
        rw [heq] at hr
        exact hr hk

/-- The seed map built by the three reserved inserts. -/
theorem seed_insert_eq (t p v : IndicatorInput) :
    insertKV (insertKV (insertKV [] "text" t) "pineId" p) "pineVersion" v =
      [("text", t), ("pineId", p), ("pineVersion", v)] := by
  simp [insertKV, keys]

/-- C3: the compiled study-input map always carries the three reserved
entries — `text` from the metadata's template, `pineId` from the
indicator's script id, `pineVersion` from its script version — and the
loop skips any metadata input descriptor whose identifier is reserved, so
no descriptor ever overrides them (in particular, for script id
`"STD;RSI"` the `pineId` entry is `"STD;RSI"` whatever the input list). -/
theorem reserved_entries_from_script_identity (ind : PineIndicator) :
    lookupKV (studyInputsMap ind) "text" =
      some (IndicatorInput.str ind.metadata.il_template) ∧
    lookupKV (studyInputsMap ind) "pineId" =
      some (IndicatorInput.str ind.script_id) ∧
    lookupKV (studyInputsMap ind) "pineVersion" =
      some (IndicatorInput.str ind.script_version) := by
  unfold studyInputsMap
  rw [seed_insert_eq]
  refine ⟨?_, ?_, ?_⟩ <;>
    rw [lookupKV_fold_reserved _ _ _ (by decide)] <;>
    simp [lookupKV]

/-- C4: `to_study_inputs` performs no I/O and always returns `Ok` on its
own — for every indicator value, whatever the metadata's inputs, default
values, fake flags and type tags. -/
theorem to_study_inputs_always_ok (ind : PineIndicator) :
    ∃ v, PineIndicator.toStudyInputs ind = Except.ok v :=
  ⟨_, rfl⟩

/-- A metadata-info value with a given input list and every other field
empty (concrete fixture for evaluating the compiler). -/
def sampleMetaInfo (l : List PineInput) : PineMetadataInfo where
  id := ""
  script_id := ""
  description := ""
  short_description := ""
  financial_period := none
  grouping_key := ""
  is_fundamental_study := false
  is_hidden_study := false
  is_tv_script := false
  is_tv_script_stub := false
  is_price_study := false
  inputs := l
  defaults := []
  palettes := []
  pine := []
  plots := []
  styles := []
  uses_private_lib := false
  warnings := []

/-- A non-hidden, non-fake input descriptor with the given identifier,
default value and type tag. -/
def sampleInput (ident : String) (dv : Value) (ty : String) : PineInput where
  name := ident
  inline := ""
  id := ident
  defval := dv
  is_hidden := false
  is_fake := false
  optional := false
  options := []
  tooltip := none
  input_type := ty

/-- An indicator with script id `"STD;RSI"`, version `"33.0"` and the given
metadata input list. -/
def sampleIndicator (l : List PineInput) : PineIndicator where
  script_id := "STD;RSI"
  script_version := "33.0"
  script_type := ScriptType.Script
  metadata := { il := "", il_template := "tmpl", data := sampleMetaInfo l }

/-- The `{length: default 14, type "integer"}` input descriptor. -/
def lengthInput : PineInput :=
  sampleInput "length" (Value.num 14) "integer"

/-- C6 counterexample: the claim includes `ScriptType::from(String)` among
the operations that complete normally on every input, but its source body
is `todo!()`, an unconditional panic (modelled as `none`): on the concrete
input `"Script"` it produces no normal result, no diagnostic-and-skip and
no unknown-event value. -/
theorem script_type_from_panics :
    ScriptType.fromString "Script" = none :=
  rfl

/-- C6 amended: no operation of the layer panics except
`ScriptType::from(String)`, which is unimplemented and panics on every
input; handler invocation always completes with at most one send, payload
classification always completes with a message or a reportable error, and
study-input compilation always returns `Ok`. -/
theorem layer_total_except_script_type_from :
    (∀ s : String, ScriptType.fromString s = none) ∧
    (∀ ind : PineIndicator, ∃ v, PineIndicator.toStudyInputs ind = Except.ok v) ∧
    (∀ (chOpen : Bool) (p : EventPayload),
      (invokeHandler (create_handler chOpen) p).sends.length ≤ 1) ∧
    (∀ d : List Value,
      (∃ m, LoadingMsg.new d = Except.ok m) ∨
      ∃ e, LoadingMsg.new d = Except.error e) := by
  refine ⟨fun _ => rfl, fun ind => ⟨_, rfl⟩, ?_, ?_⟩
  · intro chOpen p
    cases p with
    | seriesLoading d =>
        cases hm : LoadingMsg.new d <;>
          cases chOpen <;>
            simp [invokeHandler, create_handler, hm, sendOrLog]
    | studyLoading d =>
        cases hm : LoadingMsg.new d <;>
          cases chOpen <;>
            simp [invokeHandler, create_handler, hm, sendOrLog]
    | _ =>
        cases chOpen <;>
          simp [invokeHandler, create_handler, sendOrLog, sendIgnore]
  · intro d
    cases hm : LoadingMsg.new d with
    | ok m => exact Or.inl ⟨m, rfl⟩
    | error e => exact Or.inr ⟨e, rfl⟩

/-- C8 counterexample: with two input descriptors sharing the identifier
`length`, the compiled map has 4 entries while 3 plus the number of
non-reserved descriptors is 5 — the claimed count fails on duplicate
identifiers. -/
theorem study_inputs_count_counterexample :
    (studyInputsMap (sampleIndicator [lengthInput, lengthInput])).length ≠
      3 + ((sampleIndicator [lengthInput, lengthInput]).metadata.data.inputs.filter
        (fun i => !isReservedId i.id)).length := by
  decide

/-- The compiler's loop preserves key-list uniqueness. -/
theorem nodup_keys_fold (l : List PineInput)
    (m : List (String × IndicatorInput)) (h : (keys m).Nodup) :
    (keys (l.foldl studyInputsStep m)).Nodup := by
  induction l generalizing m with
  | nil => exact h
  | cons input rest ih =>
      rw [List.foldl_cons]
      apply ih
      unfold studyInputsStep
      by_cases hr : isReservedId input.id = true
      · rwa [if_pos hr]
      · rw [if_neg hr]
        exact nodup_keys_insertKV _ _ _ h

/-- A key is in the folded map iff it was seeded or is the identifier of a
non-reserved input descriptor of the list. -/
theorem mem_keys_fold (l : List PineInput)
    (m : List (String × IndicatorInput)) (x : String) :
    x ∈ keys (l.foldl studyInputsStep m) ↔
      x ∈ keys m ∨ ∃ i ∈ l, i.id = x ∧ isReservedId x = false := by
  induction l generalizing m with
  | nil => simp
  | cons input rest ih =>
      rw [List.foldl_cons, ih]
      unfold studyInputsStep
      by_cases hr : isReservedId input.id = true
      · rw [if_pos hr]
        simp only [List.mem_cons]
        constructor
        · rintro (hm | ⟨i, hil, rfl, hxr⟩)
          · exact Or.inl hm
          · exact Or.inr ⟨i, Or.inr hil, rfl, hxr⟩
        · rintro (hm | ⟨i, hil | hil, rfl, hxr⟩)
          · exact Or.inl hm
          · rw [hil] at hxr
            exact absurd hxr (by simp [hr])
          · exact Or.inr ⟨i, hil, rfl, hxr⟩
      · rw [if_neg hr]
        rw [mem_keys_insertKV]
        have hrf : isReservedId input.id = false := by
          simpa using hr
        simp only [List.mem_cons]
        constructor
        · rintro ((hm | rfl) | ⟨i, hil, rfl, hxr⟩)
          · exact Or.inl hm
          · exact Or.inr ⟨input, Or.inl rfl, rfl, hrf⟩
          · exact Or.inr ⟨i, Or.inr hil, rfl, hxr⟩
        · rintro (hm | ⟨i, hil | hil, rfl, hxr⟩)
          · exact Or.inl (Or.inl hm)
          · exact Or.inl (Or.inr (by rw [hil]))
          · exact Or.inr ⟨i, hil, rfl, hxr⟩

/-- The compiled map's keys are exactly the three reserved names plus the
non-reserved input identifiers. -/
theorem study_inputs_keys_characterization (ind : PineIndicator) (x : String) :
    x ∈ keys (studyInputsMap ind) ↔
      x ∈ (["text", "pineId", "pineVersion"] : List String) ∨
        x ∈ ((ind.metadata.data.inputs.map (fun i => i.id)).filter
          (fun s => !isReservedId s)) := by
  unfold studyInputsMap
  rw [seed_insert_eq, mem_keys_fold]
  constructor
  · rintro (hm | ⟨i, hil, rfl, hxr⟩)
    · left
      simpa [keys] using hm
    · right
      rw [List.mem_filter]
      exact ⟨List.mem_map_of_mem _ hil, by simp [hxr]⟩
  · rintro (hm | hm)
    · left
      simpa [keys] using hm
    · right
      rw [List.mem_filter] at hm
      obtain ⟨hmm, hxr⟩ := hm
      obtain ⟨i, hil, rfl⟩ := List.mem_map.mp hmm
      exact ⟨i, hil, rfl, by simpa using hxr⟩

/-- The compiled map's keys are unique. -/
theorem study_inputs_keys_nodup (ind : PineIndicator) :
    (keys (studyInputsMap ind)).Nodup := by
  unfold studyInputsMap
  apply nodup_keys_fold
  rw [seed_insert_eq]
  show (["text", "pineId", "pineVersion"] : List String).Nodup
  decide

/-- The compiled map's size: the three reserved entries plus one per
distinct non-reserved input identifier. -/
theorem study_inputs_count (ind : PineIndicator) :
    (studyInputsMap ind).length =
      3 + (((ind.metadata.data.inputs.map (fun i => i.id)).filter
        (fun s => !isReservedId s)).dedup).length := by
  have hnd := study_inputs_keys_nodup ind
  have hlen : (studyInputsMap ind).length =
      (keys (studyInputsMap ind)).length := by
    simp [keys]
  rw [hlen, ← List.toFinset_card_of_nodup hnd]
  have hset : (keys (studyInputsMap ind)).toFinset =
      (["text", "pineId", "pineVersion"] : List String).toFinset ∪
        ((ind.metadata.data.inputs.map (fun i => i.id)).filter
          (fun s => !isReservedId s)).toFinset := by
    ext x
    simp only [List.mem_toFinset, Finset.mem_union]
    exact study_inputs_keys_characterization ind x
  have hdisj :
      Disjoint ((["text", "pineId", "pineVersion"] : List String).toFinset)
        (((ind.metadata.data.inputs.map (fun i => i.id)).filter
          (fun s => !isReservedId s)).toFinset) := by
    rw [Finset.disjoint_left]
    intro a ha hb
    rw [List.mem_toFinset] at ha hb
    rw [List.mem_filter] at hb
    have hres : isReservedId a = true := by
      simp only [List.mem_cons, List.not_mem_nil, or_false] at ha
      rcases ha with rfl | rfl | rfl <;> rfl
    rw [hres] at hb
    simp at hb
  rw [hset, Finset.card_union_of_disjoint hdisj]
  simp only [List.card_toFinset]
  congr 1

/-- C8 (amended): for every metadata input list the compiled map has unique
keys and its size equals 3 plus the number of distinct non-reserved input
identifiers (duplicate identifiers collapse into one entry); in particular
an input `{length: default 14, type "integer"}` yields a `length` entry
carrying value 14, fake flag false and type tag `"integer"` alongside the
three reserved entries (4 entries in total). -/
theorem study_inputs_unique_keys_and_count (ind : PineIndicator) :
    ((keys (studyInputsMap ind)).Nodup ∧
      (studyInputsMap ind).length =
        3 + (((ind.metadata.data.inputs.map (fun i => i.id)).filter
          (fun s => !isReservedId s)).dedup).length) ∧
    (lookupKV (studyInputsMap (sampleIndicator [lengthInput])) "length" =
        some (IndicatorInput.input (Value.num 14) (Value.bool false)
          (Value.str "integer")) ∧
      (studyInputsMap (sampleIndicator [lengthInput])).length = 4) :=
  ⟨⟨study_inputs_keys_nodup ind, study_inputs_count ind⟩, ⟨rfl, rfl⟩⟩
